import Mathlib

/-!
Verification of `netmiko-multiple-connections.py` (batch SSH command runner).

The Python source is shallowly embedded below.  External collaborators
(the netmiko SSH library, the csv module's line parsing, ping3, the OS
file system and clock) are modelled as explicit parameters/oracles; the
program's own logic — CSV record extraction, header dropping, sequential
iteration, filename formatting, exception-to-tag mapping, file renaming —
is translated function by function from the source.
-/

set_option autoImplicit false

/-- Python exception classes that the program's own logic can raise or
catch, distinguished where control flow depends on them. -/
inductive PyError where
  | indexError
  | typeError
  | attributeError
  deriving DecidableEq

/-- Boolean "did this `Except` succeed" discriminator (Python: the call
returned instead of raising). -/
def isOkB {ε α : Type} : Except ε α → Bool
  | Except.ok _ => true
  | Except.error _ => false

/-- Model of Python `str.splitlines` restricted to `\n` line terminators
(the command-list files in scope are plain `\n`-terminated text): the
accumulator holds the characters of the pending line in reverse; a final
pending line is emitted only when nonempty, so a trailing newline does not
produce a trailing empty line, and `""` yields `[]`. -/
def splitlinesAux : List Char → List Char → List String
  | [], [] => []
  | [], acc => [String.mk acc.reverse]
  | c :: rest, acc =>
    if c = '\n' then String.mk acc.reverse :: splitlinesAux rest []
    else splitlinesAux rest (c :: acc)

/-- Model of `content.splitlines()` at source line 36. -/
def splitlines (s : String) : List String :=
  splitlinesAux s.data []

/-- The text of a file whose lines are `lines`, separated by `\n`
(used to state claims about "a file consisting of these lines"). -/
def joinLines : List String → String
  | [] => ""
  | [l] => l
  | l :: ls => l ++ "\n" ++ joinLines ls

/-- Model of `CSVOperator.read_commandlist` (source lines 33–41): open the file
(`none` = `IOError`, caught: the path is printed and `None` is returned),
split the content into lines, `del commandlist[0]` (raising `IndexError`
on an empty list — that exception is not an `IOError` and propagates),
and return the remaining lines. -/
def read_commandlist (file : Option String) : Except PyError (Option (List String)) :=
  match file with
  | none => Except.ok none
  | some content =>
    match splitlines content with
    | [] => Except.error PyError.indexError
    | _ :: rest => Except.ok (some rest)

/-- A Python dict with string keys and values, as produced by
`csv.DictReader`, modelled as an association list in field order. -/
abbrev PyDict := List (String × String)

/-- Model of `csv.DictReader` on an already line-parsed CSV (the csv module's
text-level row splitting is the standard library's and is modelled as the
given row list): the first row gives the field names, each further row
becomes one dict pairing field names with the row's values.  Blank-row
skipping and ragged-row padding are not exercised by valid inventories
(every data row matches the header). -/
def dictReader (file : List (List String)) : List PyDict :=
  match file with
  | [] => []
  | header :: rows => rows.map (fun r => header.zip r)

/-- Model of `CSVOperator.read_hostlist` (source lines 20–31): open the CSV file
(`none` = `IOError`, caught: the path is printed and `None` is returned),
and materialise `list(csv.DictReader(f))`. -/
def read_hostlist (file : Option (List (List String))) : Option (List PyDict) :=
  file.map dictReader

section SplitlinesLemmas

/-- Splitting consumes a newline-free chunk followed by `\n` as one line. -/
theorem splitlinesAux_chunk (cs : List Char) (rest : List Char) (acc : List Char)
    (h : '\n' ∉ cs) :
    splitlinesAux (cs ++ '\n' :: rest) acc
      = String.mk (acc.reverse ++ cs) :: splitlinesAux rest [] := by
  induction cs generalizing acc with
  | nil => simp [splitlinesAux]
  | cons c cs ih =>
    have hc : ¬ c = '\n' := fun hh => h (hh ▸ List.mem_cons_self c cs)
    have h2 : '\n' ∉ cs := fun hm => h (List.mem_cons_of_mem c hm)
    simp only [List.cons_append, splitlinesAux, if_neg hc, List.append_eq]
    rw [ih _ h2]
    simp [List.append_assoc]

/-- A final newline-free, not-everywhere-empty chunk is emitted as the
last line. -/
theorem splitlinesAux_last (cs : List Char) (acc : List Char)
    (h : '\n' ∉ cs) (hne : cs ≠ [] ∨ acc ≠ []) :
    splitlinesAux cs acc = [String.mk (acc.reverse ++ cs)] := by
  induction cs generalizing acc with
  | nil =>
    cases hne with
    | inl h1 => exact absurd rfl h1
    | inr h1 =>
      cases acc with
      | nil => exact absurd rfl h1
      | cons a as => simp [splitlinesAux]
  | cons c cs ih =>
    have hc : ¬ c = '\n' := fun hh => h (hh ▸ List.mem_cons_self c cs)
    have h2 : '\n' ∉ cs := fun hm => h (List.mem_cons_of_mem c hm)
    simp only [splitlinesAux, if_neg hc]
    rw [ih (c :: acc) h2 (Or.inr (by simp))]
    simp [List.append_assoc]

theorem string_ne_empty_data {l : String} (h : l ≠ "") : l.data ≠ [] := by
  intro hd
  apply h
  cases l with
  | mk d => cases hd; rfl

/-- Splitting the joined lines recovers the lines, provided each line is
nonempty and newline-free. -/
theorem splitlines_joinLines (lines : List String)
    (h : ∀ l ∈ lines, l ≠ "" ∧ '\n' ∉ l.data) :
    splitlines (joinLines lines) = lines := by
  induction lines with
  | nil => rfl
  | cons l ls ih =>
    cases ls with
    | nil =>
      obtain ⟨hne, hnl⟩ := h l (List.mem_cons_self l [])
      show splitlinesAux l.data [] = [l]
      rw [splitlinesAux_last l.data [] hnl (Or.inl (string_ne_empty_data hne))]
      simp
    | cons l2 ls2 =>
      obtain ⟨hne, hnl⟩ := h l (List.mem_cons_self l (l2 :: ls2))
      have hdata : (joinLines (l :: l2 :: ls2)).data
          = l.data ++ '\n' :: (joinLines (l2 :: ls2)).data := by
        show (l ++ "\n" ++ joinLines (l2 :: ls2)).data = _
        simp [String.data_append]
      show splitlinesAux (joinLines (l :: l2 :: ls2)).data [] = l :: l2 :: ls2
      rw [hdata, splitlinesAux_chunk l.data _ [] hnl]
      have ihcall := ih (fun x hx => h x (List.mem_cons_of_mem l hx))
      simp only [splitlines] at ihcall
      rw [ihcall]
      simp

end SplitlinesLemmas

/-- C7: For every command-list file consisting of a header line followed
by M data lines, `read_commandlist` produces exactly the M data lines, in
file order, with the header excluded. -/
theorem c7_commandlist_header_excluded (header : String) (data : List String)
    (h : ∀ l ∈ header :: data, l ≠ "" ∧ '\n' ∉ l.data) :
    read_commandlist (some (joinLines (header :: data))) = Except.ok (some data) := by
  show (match splitlines (joinLines (header :: data)) with
    | [] => Except.error PyError.indexError
    | _ :: rest => Except.ok (some rest)) = Except.ok (some data)
  rw [splitlines_joinLines (header :: data) h]

theorem c7_commandlist_header_excluded_witness :
    read_commandlist (some (joinLines ["command", "show version", "show ip route"]))
      = Except.ok (some ["show version", "show ip route"]) :=
  c7_commandlist_header_excluded "command" ["show version", "show ip route"] (by decide)

/-- C10: On a file with zero lines the command-list reader raises
`IndexError` (from `del commandlist[0]` on an empty list) instead of
returning an empty command list; it returns normally exactly when the
file has at least one line. -/
theorem c10_empty_file_index_error :
    read_commandlist (some "") = Except.error PyError.indexError ∧
    ∀ content : String,
      isOkB (read_commandlist (some content)) = true ↔ splitlines content ≠ [] := by
  constructor
  · rfl
  · intro content
    show isOkB (match splitlines content with
      | [] => Except.error PyError.indexError
      | _ :: rest => Except.ok (some rest)) = true ↔ splitlines content ≠ []
    cases splitlines content with
    | nil => simp [isOkB]
    | cons a as => simp [isOkB]

/-- C6: For every valid inventory CSV consisting of a header row followed
by N data rows, `read_hostlist` returns exactly N device records, in row
order, each pairing the header's field names with the row's values. -/
theorem c6_hostlist_count_order (header : List String) (rows : List (List String)) :
    ∃ records, read_hostlist (some (header :: rows)) = some records ∧
      records.length = rows.length ∧
      ∀ i : Fin rows.length,
        records.get? i.val = some (header.zip (rows.get i)) := by
  refine ⟨rows.map (fun r => header.zip r), rfl, by simp, ?_⟩
  intro i
  simp [List.get?_eq_get i.isLt]

/-! ## Device sessions (`NetmikoOperator`) and the orchestrator -/

/-- The netmiko exceptions distinguished by `exec_command`'s handlers
(source lines 152–167): `NetMikoAuthenticationException`,
`NetMikoTimeoutException`, `ReadTimeout`, and any other exception. -/
inductive SSHError where
  | authFail
  | timeoutFail
  | readTimeout
  | otherFail
  deriving DecidableEq

/-- The `error_msg` tag each handler of `exec_command` binds
(source lines 152–167), used for logging and for the file rename. -/
def errorTag : SSHError → String
  | SSHError.authFail => "SSHAuthenticationError"
  | SSHError.timeoutFail => "SSHTimeoutError"
  | SSHError.readTimeout => "ReadTimeout or CommandMismatch"
  | SSHError.otherFail => "Error"

/-- Observable calls the program makes into the SSH library while running
commands: `connection.enable()` and
`connection.send_command(cmd, ..., read_timeout=t)`. -/
inductive SSHEvent where
  | enableCall
  | sendCommand (cmd : String) (readTimeout : Nat)
  deriving DecidableEq

/-- The SSH library's behaviour toward one device, as an oracle:
whether the connect phase (`SSHDetect` + `ConnectHandler`, source lines
84–93) raises, and for each command what `send_command` returns or
raises.  `connection.enable()` and `connection.disconnect()` on an
established connection are taken to succeed. -/
structure SessionEnv where
  connectResult : Option SSHError
  sendResult : String → Except SSHError String

/-- Model of `NetmikoOperator.single_send_command` (source lines 132–139):
`enable()` is called, then `send_command(command, ..., read_timeout=60)`;
on success `'\n'` is appended to the output (the in-memory `self.res`
dict and the console prints are not modelled).  The first component is
the trace of SSH-library calls made (a raising `send_command` call is
still a made call). -/
def single_send_command (env : SessionEnv) (command : String) :
    List SSHEvent × Except SSHError String :=
  match env.sendResult command with
  | Except.error e =>
    ([SSHEvent.enableCall, SSHEvent.sendCommand command 60], Except.error e)
  | Except.ok out =>
    ([SSHEvent.enableCall, SSHEvent.sendCommand command 60], Except.ok (out ++ "\n"))

/-- The loop body of `NetmikoOperator.multi_send_command` (source lines
141–145) with its `output` accumulator: each command's result is appended;
an exception raised by `single_send_command` propagates, ending the
loop. -/
def multi_send_command_loop (env : SessionEnv) (cmds : List String) (output : String) :
    List SSHEvent × Except SSHError String :=
  match cmds with
  | [] => ([], Except.ok output)
  | c :: rest =>
    match single_send_command env c with
    | (tr, Except.error e) => (tr, Except.error e)
    | (tr, Except.ok o) =>
      let next := multi_send_command_loop env rest (output ++ o)
      (tr ++ next.1, next.2)

/-- Model of `NetmikoOperator.multi_send_command` (source lines 141–145), starting
from the empty `output` accumulator. -/
def multi_send_command (env : SessionEnv) (cmds : List String) :
    List SSHEvent × Except SSHError String :=
  multi_send_command_loop env cmds ""

/-- Model of `NetmikoOperator.rename_logfile` (source lines 95–97): the new name is
`self.outputfile + '-' + key + '.log'` — appended to the full transcript
file name, `.log` suffix included. -/
def rename_logfile (outputfileName key : String) : String :=
  outputfileName ++ "-" ++ key ++ ".log"

/-- Transcript file name `{logdir}/{hostname}-{timeinfo}-JST.log`
(source lines 58–60). -/
def outputfile (logdir hostname timeinfo : String) : String :=
  logdir ++ "/" ++ hostname ++ "-" ++ timeinfo ++ "-JST" ++ ".log"

/-- Logging file name `{logdir}/{hostname}-{timeinfo}-JST-logging.log`
(source lines 58–59). -/
def loggingfile (logdir hostname timeinfo : String) : String :=
  logdir ++ "/" ++ hostname ++ "-" ++ timeinfo ++ "-JST" ++ "-logging.log"

/-- What `exec_command` leaves behind for one device: the `return output`
of the success path, or no return plus the `error_msg` tag handled by
`wrapper_except_proccess` on the failure path. -/
inductive SessionOutcome where
  | success (output : String)
  | failed (tag : String)
  deriving DecidableEq

/-- Model of `NetmikoOperator.exec_command` (source lines 147–172) together with
its file-system effect on the transcript file: the connect attempt
creates the transcript file (netmiko's `session_log`); on any of the four
caught exception classes, `wrapper_except_proccess` (lines 127–130) runs
the diagnostic-only `ping_check`, logs the error, and renames the
transcript file.  Returns the outcome and the list of transcript files
existing for this device afterwards. -/
def exec_command (env : SessionEnv) (cmds : List String) (ofile : String) :
    SessionOutcome × List String :=
  match env.connectResult with
  | some e =>
    (SessionOutcome.failed (errorTag e), [rename_logfile ofile (errorTag e)])
  | none =>
    match multi_send_command env cmds with
    | (_, Except.error e) =>
      (SessionOutcome.failed (errorTag e), [rename_logfile ofile (errorTag e)])
    | (_, Except.ok out) => (SessionOutcome.success out, [ofile])

/-- Model of `NetmikoOperator.close` (source lines 174–175):
`self.connection.disconnect()`.  The `connection` attribute exists only
if `ConnectHandler` succeeded in `connect_autodetect`; otherwise the
attribute access raises `AttributeError`. -/
def close (env : SessionEnv) : Except PyError Unit :=
  match env.connectResult with
  | none => Except.ok ()
  | some _ => Except.error PyError.attributeError

/-- Model of `hinfo["host"]` — inventory records in scope contain the `host` key
(the `KeyError` path is not modelled). -/
def hostnameOf (hinfo : PyDict) : String :=
  (List.lookup "host" hinfo).getD ""

/-- What one loop iteration of `multi_connections` leaves behind for one
device. -/
structure DeviceResult where
  hostname : String
  outcome : SessionOutcome
  files : List String
  lfile : String
  deriving DecidableEq

/-- The `for hinfo in hlists` loop of `multi_connections` (source lines
185–188): construct the `NetmikoOperator` (whose `__init__` calls
`make_timeinfo()`, taking a fresh clock reading, and builds the file
names from it — source lines 46–61), run `exec_command`, then `close()`.
An exception escaping `close` (the `AttributeError` of a never-connected
session) is uncaught and aborts the whole loop.  `clock idx` is the value
of the `idx`-th `datetime.now` call of the run. -/
def multi_connections_go (clock : Nat → String) (renv : String → SessionEnv)
    (clist : List String) (logdir : String) (idx : Nat) :
    List PyDict → Except PyError (List DeviceResult)
  | [] => Except.ok []
  | hinfo :: rest =>
    let hostname := hostnameOf hinfo
    let ti := clock idx
    let env := renv hostname
    let result := exec_command env clist (outputfile logdir hostname ti)
    match close env with
    | Except.error e => Except.error e
    | Except.ok _ =>
      match multi_connections_go clock renv clist logdir (idx + 1) rest with
      | Except.error e => Except.error e
      | Except.ok others =>
        Except.ok ({ hostname := hostname, outcome := result.1,
                     files := result.2,
                     lfile := loggingfile logdir hostname ti } :: others)

/-- Model of `multi_connections` (source lines 178–188): one clock reading (call
index 0) fixes `timeinfo` and the run directory `log-<timeinfo>`; then
the device loop runs, each iteration taking its own clock reading (call
indices 1, 2, …).  Passing `hlists = None` (what `read_hostlist` returns
after an `IOError`) makes the `for` statement raise `TypeError`. -/
def multi_connections (clock : Nat → String) (renv : String → SessionEnv)
    (hlists : Option (List PyDict)) (clist : List String) :
    Except PyError (String × List DeviceResult) :=
  let logdir := "log-" ++ clock 0
  match hlists with
  | none => Except.error PyError.typeError
  | some hs =>
    match multi_connections_go clock renv clist logdir 1 hs with
    | Except.error e => Except.error e
    | Except.ok results => Except.ok (logdir, results)

/-! ## Per-session properties -/

/-- The spec's description of a successful session transcript: the
per-command outputs concatenated in command order, each followed by a
line terminator. -/
def concatOutputs (out : String → String) : List String → String
  | [] => ""
  | c :: rest => (out c ++ "\n") ++ concatOutputs out rest

/-- The SSH-call trace of an uninterrupted pass over a command list:
`enable()` then `send_command(c, read_timeout=60)` for each command in
order. -/
def fullTrace : List String → List SSHEvent
  | [] => []
  | c :: rest => SSHEvent.enableCall :: SSHEvent.sendCommand c 60 :: fullTrace rest

theorem multi_send_loop_ok (env : SessionEnv) (out : String → String)
    (hs : ∀ c, env.sendResult c = Except.ok (out c)) :
    ∀ (cmds : List String) (acc : String),
      multi_send_command_loop env cmds acc
        = (fullTrace cmds, Except.ok (acc ++ concatOutputs out cmds)) := by
  intro cmds
  induction cmds with
  | nil =>
    intro acc
    simp [multi_send_command_loop, fullTrace, concatOutputs]
  | cons c rest ih =>
    intro acc
    simp only [multi_send_command_loop, single_send_command, hs c]
    rw [ih (acc ++ (out c ++ "\n"))]
    simp [fullTrace, concatOutputs, String.append_assoc]

/-- C8: For every successful device session with command list
`[c1, …, ck]`, the session's produced output equals the per-command
outputs concatenated in order `c1 … ck`, each followed by a line
terminator. -/
theorem c8_output_concatenation (env : SessionEnv) (out : String → String)
    (cmds : List String) (ofile : String)
    (hconn : env.connectResult = none)
    (hs : ∀ c, env.sendResult c = Except.ok (out c)) :
    (exec_command env cmds ofile).1 = SessionOutcome.success (concatOutputs out cmds) := by
  simp only [exec_command, hconn, multi_send_command,
    multi_send_loop_ok env out hs cmds "", String.empty_append]

/-- A concrete oracle where every connect succeeds and command `c`
echoes `out:c`. -/
def envEcho : SessionEnv :=
  { connectResult := none, sendResult := fun c => Except.ok ("out:" ++ c) }

theorem c8_output_concatenation_witness :
    (exec_command envEcho ["show version", "show ip route"] "f.log").1
      = SessionOutcome.success
          (concatOutputs (fun c => "out:" ++ c) ["show version", "show ip route"]) :=
  c8_output_concatenation envEcho (fun c => "out:" ++ c)
    ["show version", "show ip route"] "f.log" rfl (fun _ => rfl)

theorem multi_send_loop_abort (env : SessionEnv) (c : String) (e : SSHError)
    (hc : env.sendResult c = Except.error e) :
    ∀ (pre : List String) (post post2 : List String) (acc : String),
      (∀ p ∈ pre, isOkB (env.sendResult p) = true) →
      multi_send_command_loop env (pre ++ c :: post) acc
        = multi_send_command_loop env (pre ++ c :: post2) acc ∧
      (multi_send_command_loop env (pre ++ c :: post) acc).2 = Except.error e := by
  intro pre
  induction pre with
  | nil =>
    intro post post2 acc _
    simp [multi_send_command_loop, single_send_command, hc]
  | cons p rest ih =>
    intro post post2 acc hpre
    have hpok : isOkB (env.sendResult p) = true := hpre p (List.mem_cons_self p rest)
    have hrest : ∀ q ∈ rest, isOkB (env.sendResult q) = true :=
      fun q hq => hpre q (List.mem_cons_of_mem p hq)
    match hp : env.sendResult p with
    | Except.error e2 => rw [hp] at hpok; exact absurd hpok (by simp [isOkB])
    | Except.ok o =>
      have step := ih post post2 (acc ++ (o ++ "\n")) hrest
      simp only [List.cons_append, multi_send_command_loop, single_send_command, hp,
        List.append_eq, List.nil_append]
      rw [step.1]
      exact ⟨rfl, by rw [← step.1]; simpa using step.2⟩

/-- C9: If sending one command of the list fails, none of the commands
after it are sent to the device (the whole run over the list behaves as
if the later commands were absent), and the session's result is that
failure — no partial skip, no retry. -/
theorem c9_abort_after_failure (env : SessionEnv) (pre : List String) (c : String)
    (post : List String) (e : SSHError)
    (hpre : ∀ p ∈ pre, isOkB (env.sendResult p) = true)
    (hc : env.sendResult c = Except.error e) :
    multi_send_command env (pre ++ c :: post) = multi_send_command env (pre ++ [c]) ∧
    (multi_send_command env (pre ++ c :: post)).2 = Except.error e := by
  have h := multi_send_loop_abort env c e hc pre post [] "" hpre
  exact ⟨h.1, h.2⟩

/-- A concrete oracle where the command `bad` raises a `ReadTimeout` and
every other command echoes itself. -/
def envOneBad : SessionEnv :=
  { connectResult := none,
    sendResult := fun c =>
      if c = "bad" then Except.error SSHError.readTimeout else Except.ok c }

theorem c9_abort_after_failure_witness :
    multi_send_command envOneBad (["show version"] ++ "bad" :: ["show ip route"])
      = multi_send_command envOneBad (["show version"] ++ ["bad"]) ∧
    (multi_send_command envOneBad (["show version"] ++ "bad" :: ["show ip route"])).2
      = Except.error SSHError.readTimeout :=
  c9_abort_after_failure envOneBad ["show version"] "bad" ["show ip route"]
    SSHError.readTimeout (by decide) rfl

/-! ## C4: privileged-mode entry and the per-command read timeout -/

/-- Whether an SSH-library call is a `send_command` call. -/
def isSendEvent : SSHEvent → Bool
  | SSHEvent.enableCall => false
  | SSHEvent.sendCommand _ _ => true

theorem fullTrace_count_enable (cmds : List String) :
    (fullTrace cmds).count SSHEvent.enableCall = cmds.length := by
  induction cmds with
  | nil => rfl
  | cons c rest ih =>
    simp [fullTrace, List.count_cons, ih]

theorem fullTrace_sends (cmds : List String) :
    (fullTrace cmds).filter isSendEvent
      = cmds.map (fun c => SSHEvent.sendCommand c 60) := by
  induction cmds with
  | nil => rfl
  | cons c rest ih =>
    simp [fullTrace, List.filter, isSendEvent, ih]

/-- C4 counterexample: a session that runs the two commands
`show version` and `show ip route` (both succeeding) makes the
privileged-mode entry call `enable()` twice, not exactly once. -/
theorem c4_enable_once_counterexample :
    ¬ ((multi_send_command envEcho ["show version", "show ip route"]).1.count
        SSHEvent.enableCall = 1) := by
  decide

/-- C4 (amended): for every device session that runs a command list of k
commands to completion, the privileged-mode entry call `enable()` is
issued once per command — k times in total, since it sits inside
`single_send_command` — and every one of the k commands is sent with a
per-command read timeout of 60 seconds. -/
theorem c4_enable_per_command_amended (env : SessionEnv) (out : String → String)
    (cmds : List String)
    (hs : ∀ c, env.sendResult c = Except.ok (out c)) :
    (multi_send_command env cmds).1.count SSHEvent.enableCall = cmds.length ∧
    (multi_send_command env cmds).1.filter isSendEvent
      = cmds.map (fun c => SSHEvent.sendCommand c 60) := by
  have h := multi_send_loop_ok env out hs cmds ""
  simp only [multi_send_command, h]
  exact ⟨fullTrace_count_enable cmds, fullTrace_sends cmds⟩

theorem c4_enable_per_command_amended_witness :
    (multi_send_command envEcho ["show version", "show ip route"]).1.count
        SSHEvent.enableCall = (["show version", "show ip route"] : List String).length ∧
    (multi_send_command envEcho ["show version", "show ip route"]).1.filter isSendEvent
      = (["show version", "show ip route"] : List String).map
          (fun c => SSHEvent.sendCommand c 60) :=
  c4_enable_per_command_amended envEcho (fun c => "out:" ++ c)
    ["show version", "show ip route"] (fun _ => rfl)

/-! ## C2: the renamed transcript file -/

theorem rename_logfile_ne (f k : String) : rename_logfile f k ≠ f := by
  intro h
  have hlen := congrArg String.length h
  rw [rename_logfile, String.length_append, String.length_append,
    String.length_append] at hlen
  have h1 : ("-" : String).length = 1 := rfl
  have h4 : (".log" : String).length = 4 := rfl
  rw [h1, h4] at hlen
  omega

/-- An oracle whose connect phase raises
`NetMikoAuthenticationException`. -/
def envAuthFail : SessionEnv :=
  { connectResult := some SSHError.authFail, sendResult := fun _ => Except.ok "" }

/-- C2 counterexample: in the claim's own scenario (authentication
failure on host `10.0.0.1`, transcript
`log-<ts>/10.0.0.1-<ts>-JST.log`), the file left after failure handling
is `log-<ts>/10.0.0.1-<ts>-JST.log-SSHAuthenticationError.log` — the tag
is appended after the full transcript name, `.log` included — which is
not the claimed `log-<ts>/10.0.0.1-<ts>-JST-SSHAuthenticationError.log`. -/
theorem c2_renamed_name_counterexample :
    (exec_command envAuthFail ["show version"]
        (outputfile "log-20240101-120000" "10.0.0.1" "20240101-120000")).2
      = ["log-20240101-120000/10.0.0.1-20240101-120000-JST.log-SSHAuthenticationError.log"] ∧
    ("log-20240101-120000/10.0.0.1-20240101-120000-JST.log-SSHAuthenticationError.log" : String)
      ≠ "log-20240101-120000/10.0.0.1-20240101-120000-JST-SSHAuthenticationError.log" := by
  constructor
  · rfl
  · decide

/-- C2 (amended): for any device session that fails during connect or
execution, after the failure handling exactly one renamed transcript
file exists for that device, named by appending `-<tag>.log` to the full
transcript file name (so the failure tag follows the transcript's `.log`
suffix), and no un-renamed transcript file remains. -/
theorem c2_failure_rename_amended (env : SessionEnv) (cmds : List String)
    (ofile tag : String)
    (h : (exec_command env cmds ofile).1 = SessionOutcome.failed tag) :
    (exec_command env cmds ofile).2 = [rename_logfile ofile tag] ∧
    ofile ∉ (exec_command env cmds ofile).2 := by
  cases hconn : env.connectResult with
  | some e =>
    have h1 : exec_command env cmds ofile
        = (SessionOutcome.failed (errorTag e), [rename_logfile ofile (errorTag e)]) := by
      simp [exec_command, hconn]
    rw [h1] at h ⊢
    have htag : tag = errorTag e := (SessionOutcome.failed.inj h).symm
    subst htag
    exact ⟨rfl, by simpa using (rename_logfile_ne ofile (errorTag e)).symm⟩
  | none =>
    match hm : multi_send_command env cmds with
    | (tr, Except.error e) =>
      have h1 : exec_command env cmds ofile
          = (SessionOutcome.failed (errorTag e), [rename_logfile ofile (errorTag e)]) := by
        simp [exec_command, hconn, hm]
      rw [h1] at h ⊢
      have htag : tag = errorTag e := (SessionOutcome.failed.inj h).symm
      subst htag
      exact ⟨rfl, by simpa using (rename_logfile_ne ofile (errorTag e)).symm⟩
    | (tr, Except.ok out) =>
      have h1 : exec_command env cmds ofile = (SessionOutcome.success out, [ofile]) := by
        simp [exec_command, hconn, hm]
      rw [h1] at h
      exact absurd h (by simp)

theorem c2_failure_rename_amended_witness :
    (exec_command envAuthFail ["show version"] "f.log").2
      = [rename_logfile "f.log" "SSHAuthenticationError"] ∧
    "f.log" ∉ (exec_command envAuthFail ["show version"] "f.log").2 :=
  c2_failure_rename_amended envAuthFail ["show version"] "f.log"
    "SSHAuthenticationError" rfl

/-! ## C1 and C3: the orchestrator loop -/

/-- A device record as `read_hostlist` produces it for the inventory
header `host,username,password,secret`. -/
def hostRecordA : PyDict :=
  [("host", "10.0.0.1"), ("username", "admin"), ("password", "x"), ("secret", "y")]

def hostRecordB : PyDict :=
  [("host", "10.0.0.2"), ("username", "admin"), ("password", "x"), ("secret", "y")]

/-- A clock that never advances during the run. -/
def clockConst : Nat → String := fun _ => "20240101-120000"

/-- SSH behaviour: connecting to `10.0.0.1` raises an authentication
exception; every other device connects and echoes. -/
def renvConnectFail : String → SessionEnv := fun h =>
  if h = "10.0.0.1" then envAuthFail else envEcho

/-- An oracle that connects but whose every `send_command` raises
`ReadTimeout`. -/
def envSendFail : SessionEnv :=
  { connectResult := none, sendResult := fun _ => Except.error SSHError.readTimeout }

/-- SSH behaviour: `10.0.0.1` connects but fails during command
execution; every other device succeeds. -/
def renvExecFail : String → SessionEnv := fun h =>
  if h = "10.0.0.1" then envSendFail else envEcho

/-- C1: with a two-device inventory where connecting to the first device
raises an SSH authentication exception, `exec_command` catches the
exception, but the unconditional `close()` that follows accesses the
never-created `connection` attribute, and the resulting `AttributeError`
is uncaught: the run aborts and the second device is never processed —
contradicting the claim (and the code's own per-device containment
design).  When the failure instead happens during command execution
(connection established), the loop does advance to the next device in
inventory order, confirming the containment works for that phase. -/
theorem c1_connect_failure_aborts_run :
    multi_connections clockConst renvConnectFail
        (some [hostRecordA, hostRecordB]) ["show version"]
      = Except.error PyError.attributeError ∧
    (multi_connections clockConst renvExecFail
          (some [hostRecordA, hostRecordB]) ["show version"]).map
        (fun p => p.2.map (fun r => (r.hostname, r.outcome)))
      = Except.ok [("10.0.0.1", SessionOutcome.failed "ReadTimeout or CommandMismatch"),
                   ("10.0.0.2", SessionOutcome.success "out:show version\n")] := by
  constructor
  · rfl
  · rfl

/-- C3 counterexample: with the inventory file unopenable,
`read_hostlist` returns `None`; the run then does not behave like a run
over an empty inventory — the `for` statement over `None` raises
`TypeError` and the program crashes. -/
theorem c3_missing_inventory_counterexample :
    multi_connections clockConst (fun _ => envEcho) none ["show version"]
      = Except.error PyError.typeError ∧
    multi_connections clockConst (fun _ => envEcho) (some []) ["show version"]
      = Except.ok ("log-20240101-120000", []) ∧
    (Except.error PyError.typeError : Except PyError (String × List DeviceResult))
      ≠ Except.ok ("log-20240101-120000", []) := by
  refine ⟨rfl, rfl, ?_⟩
  intro h
  cases h

/-- C3 (amended): if the inventory CSV cannot be opened, the reader
reports the path and returns nothing (`None`); the overall run then
crashes with a `TypeError` when the orchestrator's `for` loop iterates
`None`, instead of proceeding as if there were no devices to process. -/
theorem c3_missing_inventory_amended :
    read_hostlist none = none ∧
    ∀ (clock : Nat → String) (renv : String → SessionEnv) (clist : List String),
      multi_connections clock renv none clist = Except.error PyError.typeError :=
  ⟨rfl, fun _ _ _ => rfl⟩

/-! ## C5: run timestamp vs per-session timestamps -/

/-- The transcript/logging file names each device session constructs:
the `idx`-th session (0-based position `idx - 1` in the inventory) builds
its names from `clock idx`, the clock reading its own
`make_timeinfo()` takes, not from the run's reading `clock 0`. -/
def sessionNames (clock : Nat → String) (logdir : String) :
    Nat → List String → List (List String × String)
  | _, [] => []
  | idx, h :: rest =>
    ([outputfile logdir h (clock idx)], loggingfile logdir h (clock idx))
      :: sessionNames clock logdir (idx + 1) rest

theorem multi_connections_go_ok (clock : Nat → String) (renv : String → SessionEnv)
    (out : String → String) (cmds : List String) (logdir : String)
    (hconn : ∀ s, (renv s).connectResult = none)
    (hsend : ∀ s c, (renv s).sendResult c = Except.ok (out c)) :
    ∀ (hosts : List PyDict) (idx : Nat),
      ∃ results,
        multi_connections_go clock renv cmds logdir idx hosts = Except.ok results ∧
        results.map (fun r => (r.files, r.lfile))
          = sessionNames clock logdir idx (hosts.map hostnameOf) := by
  intro hosts
  induction hosts with
  | nil => exact fun idx => ⟨[], rfl, rfl⟩
  | cons hinfo rest ih =>
    intro idx
    obtain ⟨rs, hgo, hmap⟩ := ih (idx + 1)
    have hexec : exec_command (renv (hostnameOf hinfo)) cmds
        (outputfile logdir (hostnameOf hinfo) (clock idx))
        = (SessionOutcome.success (concatOutputs out cmds),
           [outputfile logdir (hostnameOf hinfo) (clock idx)]) := by
      simp [exec_command, hconn, multi_send_command,
        multi_send_loop_ok (renv (hostnameOf hinfo)) out (hsend (hostnameOf hinfo)) cmds "",
        String.empty_append]
    have hclose : close (renv (hostnameOf hinfo)) = Except.ok () := by
      simp [close, hconn]
    refine ⟨{ hostname := hostnameOf hinfo,
              outcome := SessionOutcome.success (concatOutputs out cmds),
              files := [outputfile logdir (hostnameOf hinfo) (clock idx)],
              lfile := loggingfile logdir (hostnameOf hinfo) (clock idx) } :: rs, ?_, ?_⟩
    · simp only [multi_connections_go, hexec, hclose, hgo]
    · simp only [List.map_cons, sessionNames, hmap]

/-- C5 (amended): the run timestamp (the clock reading at call index 0)
is taken once per invocation and determines only the run directory name
`log-<timestamp>`; each device session then takes its own clock reading
in `make_timeinfo()` (call index i+1 for the i-th device), and it is that
per-session timestamp — not the run's — that determines the session's
transcript and logging file names.  The two coincide only while the
clock string does not change between readings. -/
theorem c5_per_session_timestamp_amended (clock : Nat → String)
    (renv : String → SessionEnv) (out : String → String) (cmds : List String)
    (hosts : List PyDict)
    (hconn : ∀ s, (renv s).connectResult = none)
    (hsend : ∀ s c, (renv s).sendResult c = Except.ok (out c)) :
    ∃ results,
      multi_connections clock renv (some hosts) cmds
        = Except.ok ("log-" ++ clock 0, results) ∧
      results.map (fun r => (r.files, r.lfile))
        = sessionNames clock ("log-" ++ clock 0) 1 (hosts.map hostnameOf) := by
  obtain ⟨results, hgo, hmap⟩ :=
    multi_connections_go_ok clock renv out cmds ("log-" ++ clock 0) hconn hsend hosts 1
  refine ⟨results, ?_, hmap⟩
  show (match multi_connections_go clock renv cmds ("log-" ++ clock 0) 1 hosts with
    | Except.error e => Except.error e
    | Except.ok rs => Except.ok ("log-" ++ clock 0, rs)) = _
  rw [hgo]

/-- A clock that ticks from `T0` to `T1` right after the run timestamp is
taken. -/
def clockTick : Nat → String := fun i => if i = 0 then "T0" else "T1"

theorem c5_per_session_timestamp_amended_witness :
    ∃ results,
      multi_connections clockTick (fun _ => envEcho) (some [hostRecordA]) ["show version"]
        = Except.ok ("log-" ++ clockTick 0, results) ∧
      results.map (fun r => (r.files, r.lfile))
        = sessionNames clockTick ("log-" ++ clockTick 0) 1
            ([hostRecordA].map hostnameOf) :=
  c5_per_session_timestamp_amended clockTick (fun _ => envEcho) (fun c => "out:" ++ c)
    ["show version"] [hostRecordA] (fun _ => rfl) (fun _ _ => rfl)

/-- C5 counterexample: when the clock advances from `T0` to `T1` between
the run-timestamp reading and the first session's `make_timeinfo()`, the
session's transcript file is `log-T0/10.0.0.1-T1-JST.log` — not the name
the run timestamp `T0` would determine — so the single run timestamp
does not determine every session's file naming. -/
theorem c5_single_timestamp_counterexample :
    (multi_connections clockTick (fun _ => envEcho) (some [hostRecordA])
          ["show version"]).map (fun p => p.2.map (fun r => r.files))
      = Except.ok [[outputfile "log-T0" "10.0.0.1" "T1"]] ∧
    outputfile "log-T0" "10.0.0.1" "T1" ≠ outputfile "log-T0" "10.0.0.1" "T0" := by
  constructor
  · rfl
  · decide
